import Mathlib

/-!
Verification development for the TrafficGenerator frontend.

The React components are shallowly embedded as Lean functions.  JavaScript
absence (a field that is `undefined` or `null`) is modelled as `Option.none`;
JSX child rendering and template-literal interpolation are modelled by
`JsDisplay` and the helpers below, following the JS semantics: a JSX child
that is `undefined`/`null` renders nothing, while a template literal prints
the text "undefined".  JS numbers are modelled as rationals; `NaN` never
arises because the embedded code performs no arithmetic on absent values.
Number formatting (toLocaleString, toFixed) is abbreviated to plain decimal
printing, which is irrelevant to every claim below.
-/

/-- The colour bands used by the renderers; each constructor abbreviates the
CSS utility-class string of that band (for example `green` stands for the
green classes such as "text-green-600" or "from-green-500 to-green-600"). -/
inductive Color
  | green
  | blue
  | orange
  | red
  | gray
  deriving DecidableEq, Repr

/-- The value a JSX child position displays: nothing (for undefined, null or
boolean children), a text node, or a numeric node. -/
inductive JsDisplay
  | empty
  | text (s : String)
  | num (q : ℚ)
  deriving DecidableEq, Repr

/-- Decimal printing of a JS number, used by the template-literal model.
Locale grouping and fixed-point padding are abbreviated away. -/
def ratStr (q : ℚ) : String := toString q

/-- Number.prototype.toLocaleString, abbreviated to plain decimal printing. -/
def toLocaleString (q : ℚ) : String := ratStr q

/-- Number.prototype.toFixed, abbreviated to plain decimal printing (the
digit count does not matter to any claim). -/
def toFixed (_digits : ℕ) (q : ℚ) : String := ratStr q

/-- JSX child rendering of a possibly-absent number: undefined/null renders
nothing, a number renders as a numeric node. -/
def jsxOptNum : Option ℚ → JsDisplay
  | none => .empty
  | some q => .num q

/-- JSX child rendering of a possibly-absent string. -/
def jsxOptStr : Option String → JsDisplay
  | none => .empty
  | some s => .text s

/-- Template-literal interpolation of a possibly-absent number: an absent
value prints as the text "undefined". -/
def jsTemplateNum : Option ℚ → String
  | none => "undefined"
  | some q => ratStr q

/-- JS `x || d` on a possibly-absent number: absent or zero falls back. -/
def jsOrNum (v : Option ℚ) (d : ℚ) : ℚ :=
  match v with
  | none => d
  | some q => if q = 0 then d else q

/-- JS `s || d` where the left operand is a possibly-absent string and the
fallback is the number `d` (as in `x?.toFixed(0) || 0`): an absent or empty
string falls back to the numeric display. -/
def jsOrStrNum (v : Option String) (d : ℚ) : JsDisplay :=
  match v with
  | none => .num d
  | some s => if s = "" then .num d else .text s

/-- JS `s || d` on possibly-absent strings (empty string is falsy). -/
def jsOrStr (v : Option String) (d : String) : String :=
  match v with
  | none => d
  | some s => if s = "" then d else s

/-- JS truthiness of a possibly-absent string (`!x` in a guard). -/
def jsStrTruthy : Option String → Bool
  | none => false
  | some s => s ≠ ""

/-- JS truthiness of a possibly-absent boolean. -/
def jsBoolTruthy : Option Bool → Bool
  | none => false
  | some b => b

/-- JS `x > 1` on a possibly-absent number (`undefined > 1` is false). -/
def jsGtOne : Option ℚ → Bool
  | none => false
  | some q => decide (1 < q)

/-- The JSX pattern `xs && xs.length > 0 && render(xs)`: the section is
rendered exactly when the list is present and non-empty. -/
def renderIfNonempty {α : Type} (l : Option (List α)) : Option (List α) :=
  match l with
  | none => none
  | some xs => if xs.length > 0 then some xs else none

/-- A JS runtime error raised while rendering (calling a method of
undefined raises a TypeError). -/
inductive JsError
  | typeError
  deriving DecidableEq, Repr

/-! ## SEOScoreCard (src/unnamed/part_002) -/

/-- The five-key `breakdown` object of an `seo_score` slice; every field may
be absent in the raw JSON. -/
structure SeoBreakdown where
  title : Option ℚ
  description : Option ℚ
  keywords : Option ℚ
  content_quality : Option ℚ
  technical : Option ℚ
  deriving DecidableEq, Repr

/-- The `seo_score` slice of a ContentRecord. -/
structure SeoScore where
  overall_score : Option ℚ
  breakdown : Option SeoBreakdown
  grade : Option String
  recommendations : Option (List String)
  deriving DecidableEq, Repr

/-- getGradeColor from SEOScoreCard: `grade.startsWith('A')` and so on.  If
`grade` is absent the method call raises a TypeError. -/
def SEOScoreCard.getGradeColor (grade : Option String) : Except JsError Color :=
  match grade with
  | none => .error .typeError
  | some g =>
    if g.startsWith "A" then .ok .green
    else if g.startsWith "B" then .ok .blue
    else if g.startsWith "C" then .ok .orange
    else .ok .red

/-- getScoreColor from SEOScoreCard: bands at 85/70/50.  On an absent score
every JS comparison is false, so the result is the red band. -/
def SEOScoreCard.getScoreColor (score : Option ℚ) : Color :=
  match score with
  | none => .red
  | some s =>
    if s ≥ 85 then .green
    else if s ≥ 70 then .blue
    else if s ≥ 50 then .orange
    else .red

/-- The inline ternary chain on the overall-score progress bar (part_002
line 51), with the same 85/70/50 thresholds. -/
def SEOScoreCard.progressBarColor (score : Option ℚ) : Color :=
  match score with
  | none => .red
  | some s =>
    if s ≥ 85 then .green
    else if s ≥ 70 then .blue
    else if s ≥ 50 then .orange
    else .red

/-- The per-category bar colour (part_002 lines 70-74), banded on the
percentage at 75/50/30. -/
def SEOScoreCard.categoryBarColor (percentage : ℚ) : Color :=
  if percentage ≥ 75 then .green
  else if percentage ≥ 50 then .blue
  else if percentage ≥ 30 then .orange
  else .red

/-- One row of the category breakdown: `score = breakdown?.[key] || 0`,
`percentage = (score / max) * 100`, with `max = 20` for every category. -/
structure CategoryRow where
  label : String
  score : ℚ
  max : ℚ
  percentage : ℚ
  barColor : Color
  deriving DecidableEq, Repr

/-- Computes one category row of the SEOScoreCard breakdown. -/
def SEOScoreCard.categoryRow (b : Option SeoBreakdown) (label : String)
    (get : SeoBreakdown → Option ℚ) : CategoryRow :=
  let score := jsOrNum (b.bind get) 0
  let percentage := score / 20 * 100
  { label := label, score := score, max := 20, percentage := percentage,
    barColor := SEOScoreCard.categoryBarColor percentage }

/-- The data the SEOScoreCard markup displays. -/
structure SEOScoreCardView where
  gradeColor : Color
  gradeDisplay : JsDisplay
  scoreColor : Color
  overallScoreDisplay : JsDisplay
  progressColor : Color
  progressWidth : String
  categories : List CategoryRow
  recommendationsCard : Option (List String)
  deriving DecidableEq, Repr

/-- The SEOScoreCard renderer: `if (!seoScore) return null`, then the grade
pill (which evaluates getGradeColor on the grade and can raise), the overall
score, the five category rows and the optional recommendations section. -/
def SEOScoreCard (seoScore : Option SeoScore) :
    Except JsError (Option SEOScoreCardView) :=
  match seoScore with
  | none => .ok none
  | some s =>
    match SEOScoreCard.getGradeColor s.grade with
    | .error e => .error e
    | .ok gradeColor =>
      .ok (some {
        gradeColor := gradeColor,
        gradeDisplay := jsxOptStr s.grade,
        scoreColor := SEOScoreCard.getScoreColor s.overall_score,
        overallScoreDisplay := jsxOptNum s.overall_score,
        progressColor := SEOScoreCard.progressBarColor s.overall_score,
        progressWidth := jsTemplateNum s.overall_score ++ "%",
        categories := [
          SEOScoreCard.categoryRow s.breakdown "Title Optimization" SeoBreakdown.title,
          SEOScoreCard.categoryRow s.breakdown "Meta Description" SeoBreakdown.description,
          SEOScoreCard.categoryRow s.breakdown "Keywords" SeoBreakdown.keywords,
          SEOScoreCard.categoryRow s.breakdown "Content Quality" SeoBreakdown.content_quality,
          SEOScoreCard.categoryRow s.breakdown "Technical SEO" SeoBreakdown.technical],
        recommendationsCard := renderIfNonempty s.recommendations })

/-! ## ContentFreshness (src/unnamed/part_001, first component) -/

/-- The `freshness` slice of a ContentRecord. -/
structure Freshness where
  freshness_score : Option ℚ
  status : Option String
  days_old : Option ℚ
  needs_update : Option Bool
  deriving DecidableEq, Repr

/-- getStatusColor from ContentFreshness: a switch over the status
vocabulary with a gray default. -/
def ContentFreshness.getStatusColor (status : Option String) : Color :=
  match status with
  | some "Very Fresh" => .green
  | some "Fresh" => .green
  | some "Recent" => .blue
  | some "Moderate" => .orange
  | some "Aging" => .red
  | some "Outdated" => .red
  | _ => .gray

/-- getScoreColor from ContentFreshness: bands at 90/75/60.  On an absent
score every JS comparison is false, so the result is the red band. -/
def ContentFreshness.getScoreColor (score : Option ℚ) : Color :=
  match score with
  | none => .red
  | some s =>
    if s ≥ 90 then .green
    else if s ≥ 75 then .blue
    else if s ≥ 60 then .orange
    else .red

/-- The content-age line (part_001 line 67): strict equality with 0 picks
the "Created today" text, otherwise a template literal interpolates
`days_old` directly, so an absent value prints as the text "undefined". -/
def ContentFreshness.ageText (days_old : Option ℚ) : String :=
  if days_old = some 0 then "Created today"
  else jsTemplateNum days_old ++ " day" ++ (if jsGtOne days_old then "s" else "") ++ " old"

/-- The data the ContentFreshness markup displays. -/
structure ContentFreshnessView where
  scoreDisplay : JsDisplay
  statusColor : Color
  statusDisplay : JsDisplay
  barColor : Color
  barWidth : String
  ageText : String
  showUpdateAlert : Bool
  refreshButton : Bool
  deriving DecidableEq, Repr

/-- The ContentFreshness renderer: `if (!freshness) return null`, then the
score figure (a plain JSX child with no fallback), the status pill, the
gradient progress bar, the age line, and the update alert (whose refresh
button renders only when an onRefresh callback was passed). -/
def ContentFreshness (freshness : Option Freshness) (_contentId : String)
    (onRefresh : Bool) : Option ContentFreshnessView :=
  match freshness with
  | none => none
  | some f => some {
      scoreDisplay := jsxOptNum f.freshness_score,
      statusColor := ContentFreshness.getStatusColor f.status,
      statusDisplay := jsxOptStr f.status,
      barColor := ContentFreshness.getScoreColor f.freshness_score,
      barWidth := jsTemplateNum f.freshness_score ++ "%",
      ageText := ContentFreshness.ageText f.days_old,
      showUpdateAlert := jsBoolTruthy f.needs_update,
      refreshButton := jsBoolTruthy f.needs_update && onRefresh }

/-! ## TrafficInsights (src/frontend/src/components/TrafficInsights.jsx) -/

/-- The `estimated_monthly_traffic` object of a traffic prediction. -/
structure EstimatedTraffic where
  low : Option ℚ
  mid : Option ℚ
  high : Option ℚ
  deriving DecidableEq, Repr

/-- The `factors` object of a traffic prediction. -/
structure TrafficFactors where
  keyword_count : Option ℚ
  quality_score : Option ℚ
  readability_score : Option ℚ
  content_length : Option ℚ
  deriving DecidableEq, Repr

/-- The `traffic_prediction` slice of a ContentRecord. -/
structure TrafficPrediction where
  estimated_monthly_traffic : Option EstimatedTraffic
  traffic_tier : Option String
  factors : Option TrafficFactors
  recommendations : Option (List String)
  deriving DecidableEq, Repr

/-- The `keyword_gap` slice of a ContentRecord. -/
structure KeywordGap where
  coverage_score : Option ℚ
  covered : Option ℚ
  missing : Option ℚ
  total_expected : Option ℚ
  missing_keywords : Option (List String)
  deriving DecidableEq, Repr

/-- A snippet entry of the `serp_optimization` slice. -/
structure SerpSnippet where
  optimized : Option Bool
  count : Option ℚ
  recommendation : Option String
  deriving DecidableEq, Repr

/-- The `serp_optimization` slice of a ContentRecord. -/
structure Serp where
  featured_snippet : Option SerpSnippet
  list_snippet : Option SerpSnippet
  deriving DecidableEq, Repr

/-- getTierColor from TrafficInsights: a switch with High green, Medium
orange and a blue default (which also covers an absent tier). -/
def TrafficInsights.getTierColor (tier : Option String) : Color :=
  match tier with
  | some "High" => .green
  | some "Medium" => .orange
  | _ => .blue

/-- The keyword-coverage card of TrafficInsights. -/
structure KeywordGapView where
  coverageScore : JsDisplay
  coverageBarWidth : ℚ
  covered : JsDisplay
  missing : JsDisplay
  totalExpected : JsDisplay
  missingKeywords : Option (List String)
  deriving DecidableEq, Repr

/-- Renders the keyword-coverage card when the `keywordGap` prop is
present: every numeric leaf is read through an explicit `|| 0` fallback,
and the missing-keyword chips render the first 8 entries when the list is
present and non-empty. -/
def TrafficInsights.keywordGapCard (kg : Option KeywordGap) : Option KeywordGapView :=
  kg.map fun g => {
    coverageScore := jsOrStrNum (g.coverage_score.map (toFixed 0)) 0,
    coverageBarWidth := jsOrNum g.coverage_score 0,
    covered := .num (jsOrNum g.covered 0),
    missing := .num (jsOrNum g.missing 0),
    totalExpected := .num (jsOrNum g.total_expected 0),
    missingKeywords := (renderIfNonempty g.missing_keywords).map (List.take 8) }

/-- The featured-snippet row of the SERP card. -/
structure FeaturedSnippetView where
  optimized : Bool
  message : String
  deriving DecidableEq, Repr

/-- The list-snippet row of the SERP card. -/
structure ListSnippetView where
  optimized : Bool
  count : ℚ
  message : JsDisplay
  deriving DecidableEq, Repr

/-- The SERP-features card of TrafficInsights. -/
structure SerpView where
  featured : Option FeaturedSnippetView
  listSnippet : Option ListSnippetView
  deriving DecidableEq, Repr

/-- Renders the SERP card when the `serp` prop is present; each row renders
only when its snippet object is present. -/
def TrafficInsights.serpCard (serp : Option Serp) : Option SerpView :=
  serp.map fun sp => {
    featured := sp.featured_snippet.map fun sn =>
      { optimized := jsBoolTruthy sn.optimized,
        message := if jsBoolTruthy sn.optimized
          then "Content is optimized for featured snippets"
          else "Add clear definitions in first paragraph" },
    listSnippet := sp.list_snippet.map fun sn =>
      { optimized := jsBoolTruthy sn.optimized,
        count := jsOrNum sn.count 0,
        message := if jsBoolTruthy sn.optimized
          then .text "Great! Lists are well structured"
          else jsxOptStr sn.recommendation } }

/-- The data the TrafficInsights markup displays. -/
structure TrafficInsightsView where
  lowEstimate : JsDisplay
  midEstimate : JsDisplay
  highEstimate : JsDisplay
  tierColor : Color
  tierLabel : JsDisplay
  keywordCount : JsDisplay
  qualityScore : JsDisplay
  readability : JsDisplay
  wordCount : JsDisplay
  keywordGapCard : Option KeywordGapView
  serpCard : Option SerpView
  recommendationsCard : Option (List String)
  deriving DecidableEq, Repr

/-- The TrafficInsights renderer: `if (!trafficPrediction) return null`,
then the three estimates (`x?.toLocaleString() || 0`), the tier pill, the
four factor leaves (`factors?.x || 0`, partly through toFixed), and the
optional keyword-gap, SERP and recommendations cards.  The `freshness` prop
is accepted but never used by the markup. -/
def TrafficInsights (trafficPrediction : Option TrafficPrediction)
    (keywordGap : Option KeywordGap) (serp : Option Serp)
    (_freshness : Option Freshness) : Option TrafficInsightsView :=
  match trafficPrediction with
  | none => none
  | some tp => some {
      lowEstimate := jsOrStrNum ((tp.estimated_monthly_traffic.bind EstimatedTraffic.low).map toLocaleString) 0,
      midEstimate := jsOrStrNum ((tp.estimated_monthly_traffic.bind EstimatedTraffic.mid).map toLocaleString) 0,
      highEstimate := jsOrStrNum ((tp.estimated_monthly_traffic.bind EstimatedTraffic.high).map toLocaleString) 0,
      tierColor := TrafficInsights.getTierColor tp.traffic_tier,
      tierLabel := jsxOptStr tp.traffic_tier,
      keywordCount := .num (jsOrNum (tp.factors.bind TrafficFactors.keyword_count) 0),
      qualityScore := jsOrStrNum ((tp.factors.bind TrafficFactors.quality_score).map (toFixed 1)) 0,
      readability := jsOrStrNum ((tp.factors.bind TrafficFactors.readability_score).map (toFixed 0)) 0,
      wordCount := .num (jsOrNum (tp.factors.bind TrafficFactors.content_length) 0),
      keywordGapCard := TrafficInsights.keywordGapCard keywordGap,
      serpCard := TrafficInsights.serpCard serp,
      recommendationsCard := renderIfNonempty tp.recommendations }

/-! ## MetaPreview (src/unnamed/part_001, second component) -/

/-- The `google` object of a `meta_preview` slice. -/
structure MetaGoogle where
  url_display : Option String
  title : Option String
  description : Option String
  deriving DecidableEq, Repr

/-- The `social` object of a `meta_preview` slice. -/
structure MetaSocial where
  og_title : Option String
  og_description : Option String
  twitter_title : Option String
  twitter_description : Option String
  deriving DecidableEq, Repr

/-- The `character_counts` object of a `meta_preview` slice. -/
structure CharacterCounts where
  title_length : Option ℚ
  title_optimal : Option Bool
  description_length : Option ℚ
  description_optimal : Option Bool
  deriving DecidableEq, Repr

/-- The `meta_preview` slice of a ContentRecord. -/
structure MetaPreviewData where
  google : Option MetaGoogle
  social : Option MetaSocial
  character_counts : Option CharacterCounts
  deriving DecidableEq, Repr

/-- The data the MetaPreview markup displays. -/
structure MetaPreviewView where
  googleUrl : JsDisplay
  googleTitle : JsDisplay
  googleDescription : JsDisplay
  titleLenDisplay : JsDisplay
  titleOptimal : Bool
  descriptionLenDisplay : JsDisplay
  descriptionOptimal : Bool
  ogTitle : JsDisplay
  ogDescription : JsDisplay
  twitterTitle : JsDisplay
  twitterDescription : JsDisplay
  deriving DecidableEq, Repr

/-- The MetaPreview renderer: `if (!metaPreview) return null`, then the
Google, Facebook and Twitter previews, all read through safe navigation
(`google?.title`, `character_counts?.title_length`, ...) with no numeric
fallbacks.  The `title`, `description` and `url` props are accepted but
never used by the markup. -/
def MetaPreview (metaPreview : Option MetaPreviewData) (_title : String)
    (_description : String) (_url : String) : Option MetaPreviewView :=
  match metaPreview with
  | none => none
  | some mp => some {
      googleUrl := jsxOptStr (mp.google.bind MetaGoogle.url_display),
      googleTitle := jsxOptStr (mp.google.bind MetaGoogle.title),
      googleDescription := jsxOptStr (mp.google.bind MetaGoogle.description),
      titleLenDisplay := jsxOptNum (mp.character_counts.bind CharacterCounts.title_length),
      titleOptimal := jsBoolTruthy (mp.character_counts.bind CharacterCounts.title_optimal),
      descriptionLenDisplay := jsxOptNum (mp.character_counts.bind CharacterCounts.description_length),
      descriptionOptimal := jsBoolTruthy (mp.character_counts.bind CharacterCounts.description_optimal),
      ogTitle := jsxOptStr (mp.social.bind MetaSocial.og_title),
      ogDescription := jsxOptStr (mp.social.bind MetaSocial.og_description),
      twitterTitle := jsxOptStr (mp.social.bind MetaSocial.twitter_title),
      twitterDescription := jsxOptStr (mp.social.bind MetaSocial.twitter_description) }

/-! ## TopicClusters (src/unnamed/part_000) -/

/-- An entry of the `cluster_topics` list. -/
structure ClusterTopic where
  topic : Option String
  relationship : Option String
  keywords : Option (List String)
  deriving DecidableEq, Repr

/-- The `topic_clusters` slice of a ContentRecord. -/
structure TopicClustersData where
  pillar_topic : Option String
  pillar_keywords : Option (List String)
  cluster_topics : Option (List ClusterTopic)
  deriving DecidableEq, Repr

/-- One rendered cluster-topic card. -/
structure ClusterTopicView where
  topic : JsDisplay
  relationship : JsDisplay
  keywords : Option (List String)
  deriving DecidableEq, Repr

/-- The data the TopicClusters markup displays. -/
structure TopicClustersView where
  pillarTopic : String
  pillarKeywords : Option (List String)
  clusterTopics : Option (List ClusterTopicView)
  deriving DecidableEq, Repr

/-- The TopicClusters renderer.  Its guard is
`if (!topicClusters || !topicClusters.pillar_topic) return null`, so a
present slice whose pillar topic is absent or the empty string (both falsy)
also renders nothing. -/
def TopicClusters (topicClusters : Option TopicClustersData) : Option TopicClustersView :=
  match topicClusters with
  | none => none
  | some tc =>
    if jsStrTruthy tc.pillar_topic then
      some {
        pillarTopic := tc.pillar_topic.getD "",
        pillarKeywords := renderIfNonempty tc.pillar_keywords,
        clusterTopics := (renderIfNonempty tc.cluster_topics).map fun cs =>
          cs.map fun c => {
            topic := jsxOptStr c.topic,
            relationship := jsxOptStr c.relationship,
            keywords := renderIfNonempty c.keywords } }
    else none

/-! ## Page-level models

Network effects are embedded by passing each request's eventual result as an
explicit parameter and returning the list of requests the handler issues
together with the resulting component state.  `Promise.all` over two
requests is modelled by issuing both requests unconditionally and by the
all-or-nothing result handling of the JS code: the `then` branch runs only
when both results are successes, the `catch` branch otherwise, with no
partial state update. -/

/-- A transport-level failure of a single request. -/
inductive FetchError
  | networkError
  deriving DecidableEq, Repr

/-- A content record as consumed by the detail page; the display-only fields
not examined by any verified claim are elided. -/
structure ContentRecord where
  id : String
  deriving DecidableEq, Repr

/-- A generated query belonging to a content record. -/
structure Query where
  id : String
  query : String
  deriving DecidableEq, Repr

/-- The payload of `POST /content` as built by AddContent: the spread
`...(inputType === 'url' ? { url } : { title, content })` contributes
exactly one of the two field groups. -/
structure PostPayload where
  input_type : String
  url : Option String
  title : Option String
  content : Option String
  deriving DecidableEq, Repr

/-- An HTTP request issued by a page handler. -/
inductive Request
  | get (path : String)
  | post (path : String) (payload : PostPayload)
  | del (path : String)
  deriving DecidableEq, Repr

/-! ### EnhancedContentDetails (src/unnamed/part_004) -/

/-- The state of the detail page (useState hooks). -/
structure DetailState where
  content : Option ContentRecord
  queries : List Query
  loading : Bool
  toasts : List String
  deriving DecidableEq, Repr

/-- The initial detail-page state: no content, no queries, loading. -/
def initialDetailState : DetailState :=
  { content := none, queries := [], loading := true, toasts := [] }

/-- fetchContent from EnhancedContentDetails: sets loading, issues the
content-by-id and queries-by-content-id requests together (Promise.all),
stores both results when both succeed, and on any failure toasts an error
and stores neither; `finally` always clears loading. -/
def fetchContent (id : String) (contentRes : Except FetchError ContentRecord)
    (queriesRes : Except FetchError (List Query)) (s : DetailState) :
    List Request × DetailState :=
  let s1 := { s with loading := true }
  let reqs := [Request.get ("/content/" ++ id), Request.get ("/queries/" ++ id)]
  match contentRes, queriesRes with
  | .ok c, .ok q =>
    (reqs, { s1 with content := some c, queries := q, loading := false })
  | _, _ =>
    (reqs, { s1 with toasts := s1.toasts ++ ["Failed to load content"], loading := false })

/-- What the detail page shows for a given state. -/
inductive DetailRender
  | loadingSpinner
  | notFound
  | details (c : ContentRecord) (queries : List Query)
  deriving DecidableEq, Repr

/-- The early returns of EnhancedContentDetails: a spinner while loading, a
"Content not found" paragraph when the fetch settled without a record, and
the full details otherwise. -/
def renderDetail (s : DetailState) : DetailRender :=
  if s.loading then .loadingSpinner
  else
    match s.content with
    | none => .notFound
    | some c => .details c s.queries

/-! ### AddContent (src/unnamed/part_003, first component) -/

/-- The id-bearing response of a successful `POST /content`. -/
structure PostResponse where
  id : String
  deriving DecidableEq, Repr

/-- The error object of a failed `POST /content`; `detail` models the chain
`error.response?.data?.detail` (absent when any link is missing). -/
structure PostErrorInfo where
  detail : Option String
  deriving DecidableEq, Repr

/-- Everything observable about one run of handleSubmit. -/
structure SubmitOutcome where
  request : Option PostPayload
  toasts : List String
  navigation : Option (String × ℕ)
  finalLoading : Bool
  deriving DecidableEq, Repr

/-- The payload builder inside handleSubmit. -/
def AddContent.buildPayload (inputType url title content : String) : PostPayload :=
  if inputType = "url" then
    { input_type := inputType, url := some url, title := none, content := none }
  else
    { input_type := inputType, url := none, title := some title, content := some content }

/-- handleSubmit from AddContent: validates (empty strings are falsy),
returning early with an error toast and no request on invalid input; on
valid input posts the payload, and either toasts success and schedules
navigation to the new detail page after 1500 ms, or toasts
`error.response?.data?.detail || 'Failed to add content'`; `finally`
always clears the loading flag. -/
def AddContent.handleSubmit (inputType url title content : String)
    (postResult : Except PostErrorInfo PostResponse) : SubmitOutcome :=
  if inputType = "url" ∧ url = "" then
    { request := none, toasts := ["Please enter a URL"],
      navigation := none, finalLoading := false }
  else if inputType = "manual" ∧ (title = "" ∨ content = "") then
    { request := none, toasts := ["Please fill in all fields"],
      navigation := none, finalLoading := false }
  else
    let payload := AddContent.buildPayload inputType url title content
    match postResult with
    | .ok r =>
      { request := some payload,
        toasts := ["Content added successfully! Generating traffic strategies..."],
        navigation := some ("/content/" ++ r.id, 1500),
        finalLoading := false }
    | .error e =>
      { request := some payload,
        toasts := [jsOrStr e.detail "Failed to add content"],
        navigation := none,
        finalLoading := false }

/-! ### Dashboard (src/unnamed/part_003, second component) -/

/-- A top-performing entry of the analytics summary. -/
structure TopPerforming where
  title : String
  performance_score : Option ℚ
  deriving DecidableEq, Repr

/-- The analytics summary fetched by the dashboard. -/
structure Analytics where
  total_content : Option ℚ
  total_queries : Option ℚ
  avg_performance_score : Option ℚ
  avg_readability_score : Option ℚ
  top_performing : Option (List TopPerforming)
  deriving DecidableEq, Repr

/-- A content-list item as consumed by the dashboard list; display-only
fields not examined by any verified claim are elided. -/
structure ContentItem where
  id : String
  deriving DecidableEq, Repr

/-- The state of the dashboard page (useState hooks). -/
structure DashboardState where
  analytics : Option Analytics
  contents : List ContentItem
  loading : Bool
  deleteDialogOpen : Bool
  contentToDelete : Option String
  toasts : List String
  deriving DecidableEq, Repr

/-- fetchData from Dashboard: sets loading, issues the analytics and
content-list requests together (Promise.all), stores both results when both
succeed, toasts an error otherwise; `finally` clears loading. -/
def Dashboard.fetchData (analyticsRes : Except FetchError Analytics)
    (contentsRes : Except FetchError (List ContentItem)) (s : DashboardState) :
    List Request × DashboardState :=
  let s1 := { s with loading := true }
  let reqs := [Request.get "/analytics", Request.get "/content"]
  match analyticsRes, contentsRes with
  | .ok a, .ok cs =>
    (reqs, { s1 with analytics := some a, contents := cs, loading := false })
  | _, _ =>
    (reqs, { s1 with toasts := s1.toasts ++ ["Failed to load data"], loading := false })

/-- openDeleteDialog from Dashboard: records the id and opens the dialog. -/
def Dashboard.openDeleteDialog (contentId : String) (s : DashboardState) : DashboardState :=
  { s with contentToDelete := some contentId, deleteDialogOpen := true }

/-- The Cancel button of the confirmation dialog: onOpenChange(false) closes
the dialog; no handler runs, so no request is issued and no state beyond
the open flag changes. -/
def Dashboard.cancelDelete (s : DashboardState) : List Request × DashboardState :=
  ([], { s with deleteDialogOpen := false })

/-- handleDelete from Dashboard: returns immediately when no id is staged;
otherwise issues exactly one DELETE, and on success toasts, closes the
dialog, clears the staged id and re-runs fetchData (no local removal); on
failure it only toasts. -/
def Dashboard.handleDelete (deleteRes : Except FetchError Unit)
    (analyticsRes : Except FetchError Analytics)
    (contentsRes : Except FetchError (List ContentItem)) (s : DashboardState) :
    List Request × DashboardState :=
  match s.contentToDelete with
  | none => ([], s)
  | some id =>
    match deleteRes with
    | .ok _ =>
      let s1 := { s with toasts := s.toasts ++ ["Content deleted successfully"],
                         deleteDialogOpen := false, contentToDelete := none }
      let (reqs, s2) := Dashboard.fetchData analyticsRes contentsRes s1
      (Request.del ("/content/" ++ id) :: reqs, s2)
    | .error _ =>
      ([Request.del ("/content/" ++ id)],
       { s with toasts := s.toasts ++ ["Failed to delete content"] })

/-- Counts the DELETE requests in a request list. -/
def countDeletes (reqs : List Request) : ℕ :=
  (reqs.filter fun r => match r with | .del _ => true | _ => false).length

/-! ### ExportModal (src/frontend/src/components/ExportModal.jsx)

The two copy actions share the single `copied` useState cell and each
schedules an un-cancelled `setTimeout(() => setCopied(null), 2000)`.
Time is modelled in milliseconds; `advance now s` fires every timeout whose
deadline has passed (each callback sets `copied` to null unconditionally). -/

/-- The observable state of the export modal. -/
structure ModalState where
  copied : Option String
  timers : List ℕ
  clipboard : Option String
  toasts : List String
  deriving DecidableEq, Repr

/-- The initial modal state: nothing copied, no pending timers. -/
def ExportModal.initialState : ModalState :=
  { copied := none, timers := [], clipboard := none, toasts := [] }

/-- copyShareLink from ExportModal, clicked at time `now`: writes the share
URL to the clipboard, sets the shared `copied` cell to the link marker,
toasts, and schedules a revert timeout for `now + 2000`. -/
def ExportModal.copyShareLink (origin contentId : String) (now : ℕ)
    (s : ModalState) : ModalState :=
  { s with clipboard := some (origin ++ "/share/" ++ contentId),
           copied := some "link",
           toasts := s.toasts ++ ["Share link copied!"],
           timers := s.timers ++ [now + 2000] }

/-- copySitemapUrl from ExportModal, clicked at time `now`: writes the
sitemap URL to the clipboard, sets the shared `copied` cell to the sitemap
marker, toasts, and schedules a revert timeout for `now + 2000`. -/
def ExportModal.copySitemapUrl (origin : String) (now : ℕ)
    (s : ModalState) : ModalState :=
  { s with clipboard := some (origin ++ "/api/sitemap.xml"),
           copied := some "sitemap",
           toasts := s.toasts ++ ["Sitemap URL copied!"],
           timers := s.timers ++ [now + 2000] }

/-- Advances the clock to `now`: every due timeout callback runs
`setCopied(null)` unconditionally, whichever click scheduled it. -/
def ExportModal.advance (now : ℕ) (s : ModalState) : ModalState :=
  if s.timers.any fun t => t ≤ now then
    { s with copied := none, timers := s.timers.filter fun t => now < t }
  else s

/-! ## Claim theorems -/

/-- Claim C1: for every Section Renderer (SEOScoreCard, ContentFreshness,
TrafficInsights, MetaPreview, TopicClusters), if the root input slice is
absent (null or undefined), the renderer returns null and produces no
visible output — never an error (the only renderer whose model can raise,
SEOScoreCard, returns `Except.ok none`) and never a placeholder. -/
theorem claim_C1 :
    SEOScoreCard none = .ok none ∧
    (∀ cid onr, ContentFreshness none cid onr = none) ∧
    (∀ kg serp fr, TrafficInsights none kg serp fr = none) ∧
    (∀ t d u, MetaPreview none t d u = none) ∧
    TopicClusters none = none :=
  ⟨rfl, fun _ _ => rfl, fun _ _ _ => rfl, fun _ _ _ => rfl, rfl⟩

/-- Claim C3: each score-band mapping is a total deterministic function of
its input matching the tables: SEOScoreCard overall score maps scores at or
above 85 to green, at or above 70 to blue, at or above 50 to orange, else
red; ContentFreshness maps at or above 90 to green, at or above 75 to blue,
at or above 60 to orange, else red; TrafficInsights maps the High tier to
green, Medium to orange and everything else to blue; and each boundary value
(90, 85, 75, 70, 60, 50) falls in the higher band. -/
theorem claim_C3 : ∀ q : ℚ,
    ((85 ≤ q → SEOScoreCard.getScoreColor (some q) = .green) ∧
     (70 ≤ q → q < 85 → SEOScoreCard.getScoreColor (some q) = .blue) ∧
     (50 ≤ q → q < 70 → SEOScoreCard.getScoreColor (some q) = .orange) ∧
     (q < 50 → SEOScoreCard.getScoreColor (some q) = .red)) ∧
    ((90 ≤ q → ContentFreshness.getScoreColor (some q) = .green) ∧
     (75 ≤ q → q < 90 → ContentFreshness.getScoreColor (some q) = .blue) ∧
     (60 ≤ q → q < 75 → ContentFreshness.getScoreColor (some q) = .orange) ∧
     (q < 60 → ContentFreshness.getScoreColor (some q) = .red)) ∧
    (TrafficInsights.getTierColor (some "High") = .green ∧
     TrafficInsights.getTierColor (some "Medium") = .orange ∧
     (∀ t, t ≠ "High" → t ≠ "Medium" → TrafficInsights.getTierColor (some t) = .blue)) ∧
    (SEOScoreCard.getScoreColor (some 85) = .green ∧
     SEOScoreCard.getScoreColor (some 70) = .blue ∧
     SEOScoreCard.getScoreColor (some 50) = .orange ∧
     ContentFreshness.getScoreColor (some 90) = .green ∧
     ContentFreshness.getScoreColor (some 75) = .blue ∧
     ContentFreshness.getScoreColor (some 60) = .orange) := by
  intro q
  refine ⟨⟨fun h => ?_, fun h1 h2 => ?_, fun h1 h2 => ?_, fun h => ?_⟩,
    ⟨fun h => ?_, fun h1 h2 => ?_, fun h1 h2 => ?_, fun h => ?_⟩,
    ⟨rfl, rfl, fun t ht1 ht2 => ?_⟩,
    by decide, by decide, by decide, by decide, by decide, by decide⟩
  all_goals try {
    simp only [SEOScoreCard.getScoreColor, ContentFreshness.getScoreColor]
    split_ifs <;> first | rfl | linarith }
  unfold TrafficInsights.getTierColor
  split <;> simp_all

/-- Claim C3 witness: the band theorem applied at concrete scores, one per
band of each mapping and one boundary value of each. -/
theorem claim_C3_witness :
    SEOScoreCard.getScoreColor (some 92) = .green ∧
    SEOScoreCard.getScoreColor (some 70) = .blue ∧
    SEOScoreCard.getScoreColor (some 55) = .orange ∧
    SEOScoreCard.getScoreColor (some 10) = .red ∧
    ContentFreshness.getScoreColor (some 90) = .green ∧
    ContentFreshness.getScoreColor (some 80) = .blue ∧
    ContentFreshness.getScoreColor (some 60) = .orange ∧
    ContentFreshness.getScoreColor (some 59) = .red ∧
    TrafficInsights.getTierColor (some "Low") = .blue :=
  ⟨(claim_C3 92).1.1 (by norm_num),
   (claim_C3 70).1.2.1 (by norm_num) (by norm_num),
   (claim_C3 55).1.2.2.1 (by norm_num) (by norm_num),
   (claim_C3 10).1.2.2.2 (by norm_num),
   (claim_C3 90).2.1.1 (by norm_num),
   (claim_C3 80).2.1.2.1 (by norm_num) (by norm_num),
   (claim_C3 60).2.1.2.2.1 (by norm_num) (by norm_num),
   (claim_C3 59).2.1.2.2.2 (by norm_num),
   (claim_C3 0).2.2.1.2.2 "Low" (by decide) (by decide)⟩

/-- Claim C9: SEOScoreCard is total only when a present seo_score slice
carries a grade string: after the top-level null check it calls
grade.startsWith unconditionally, so a non-null slice whose grade is absent
makes rendering raise a TypeError instead of rendering nothing, while any
present grade renders successfully — the error branch is unreachable
exactly when presence implies a structurally complete slice. -/
theorem claim_C9 : ∀ s : SeoScore,
    (s.grade = none → SEOScoreCard (some s) = .error .typeError) ∧
    (∀ g, s.grade = some g → ∃ v, SEOScoreCard (some s) = .ok (some v)) := by
  intro s
  constructor
  · intro h
    simp [SEOScoreCard, SEOScoreCard.getGradeColor, h]
  · intro g h
    rcases e : SEOScoreCard.getGradeColor s.grade with err | c
    · rw [h] at e
      simp only [SEOScoreCard.getGradeColor] at e
      split_ifs at e
    · exact ⟨_, by simp only [SEOScoreCard, e]; rfl⟩

/-- Claim C9 witness: a present slice with an absent grade raises, and the
same slice with grade "A" renders. -/
theorem claim_C9_witness :
    SEOScoreCard (some {
      overall_score := some 80,
      breakdown := none,
      grade := none,
      recommendations := none }) = .error .typeError ∧
    ∃ v, SEOScoreCard (some {
      overall_score := some 80,
      breakdown := none,
      grade := some "A",
      recommendations := none }) = .ok (some v) :=
  ⟨(claim_C9 _).1 rfl, (claim_C9 _).2 "A" rfl⟩

/-- Claim C10: TopicClusters applies a stronger guard than the top-level
null check: a present slice whose pillar_topic is absent or the empty
string also renders nothing, in addition to the absent-slice case (and the
guard is exactly that: any non-empty pillar topic renders the card). -/
theorem claim_C10 : ∀ tc : TopicClustersData,
    (tc.pillar_topic = none → TopicClusters (some tc) = none) ∧
    (tc.pillar_topic = some "" → TopicClusters (some tc) = none) ∧
    TopicClusters none = none ∧
    (∀ p, tc.pillar_topic = some p → p ≠ "" →
      (TopicClusters (some tc)).isSome = true) := by
  intro tc
  refine ⟨?_, ?_, rfl, ?_⟩
  · intro h
    simp [TopicClusters, jsStrTruthy, h]
  · intro h
    simp [TopicClusters, jsStrTruthy, h]
  · intro p h hp
    simp [TopicClusters, jsStrTruthy, h, hp]

/-- Claim C10 witness: concrete slices with an absent and an empty pillar
topic render nothing; a non-empty pillar topic renders the card. -/
theorem claim_C10_witness :
    TopicClusters (some {
      pillar_topic := none,
      pillar_keywords := some ["k"],
      cluster_topics := none }) = none ∧
    TopicClusters (some {
      pillar_topic := some "",
      pillar_keywords := some ["k"],
      cluster_topics := none }) = none ∧
    (TopicClusters (some {
      pillar_topic := some "SEO",
      pillar_keywords := none,
      cluster_topics := none })).isSome = true :=
  ⟨(claim_C10 _).1 rfl, (claim_C10 _).2.1 rfl,
   (claim_C10 _).2.2.2 "SEO" rfl (by decide)⟩

/-- Claim C2 counterexample: the claim fails on the code.  A present
freshness slice with an absent freshness_score renders the score position
empty, not 0; a present meta_preview with an absent title_length renders
the character count empty, not 0; and a present freshness slice with an
absent days_old renders the literal text "undefined day old" in the age
line. -/
theorem claim_C2_counterexample :
    (ContentFreshness (some {
      freshness_score := none,
      status := some "Fresh",
      days_old := some 3,
      needs_update := some false }) "c1" true).map ContentFreshnessView.scoreDisplay
        = some JsDisplay.empty ∧
    some JsDisplay.empty ≠ some (JsDisplay.num 0) ∧
    (MetaPreview (some {
      google := none,
      social := none,
      character_counts := some {
        title_length := none,
        title_optimal := some true,
        description_length := some 120,
        description_optimal := some true } }) "t" "d" "u").map MetaPreviewView.titleLenDisplay
        = some JsDisplay.empty ∧
    (ContentFreshness (some {
      freshness_score := some 80,
      status := some "Fresh",
      days_old := none,
      needs_update := some false }) "c1" true).map ContentFreshnessView.ageText
        = some "undefined day old" :=
  ⟨rfl, by decide, rfl, rfl⟩

/-- Claim C2 as amended: optional numeric leaves read through an explicit
`|| 0` fallback (the three traffic estimates, the four factor counts, the
coverage score, the keyword-gap counts and the SEO breakdown scores) render
0 when absent and never NaN or the text "undefined"; but ContentFreshness
renders an absent freshness_score as empty output rather than 0, MetaPreview
renders absent character counts as empty output rather than 0, and
ContentFreshness renders an absent days_old as the literal text
"undefined day old" in its age line. -/
theorem claim_C2 :
    (∀ tier f r kg serp fr, (TrafficInsights (some {
        estimated_monthly_traffic := none,
        traffic_tier := tier,
        factors := f,
        recommendations := r }) kg serp fr).map TrafficInsightsView.lowEstimate
          = some (JsDisplay.num 0)) ∧
    (∀ m h tier f r kg serp fr, (TrafficInsights (some {
        estimated_monthly_traffic := some { low := none, mid := m, high := h },
        traffic_tier := tier,
        factors := f,
        recommendations := r }) kg serp fr).map TrafficInsightsView.lowEstimate
          = some (JsDisplay.num 0)) ∧
    (∀ tier r kg serp fr,
      (TrafficInsights (some {
        estimated_monthly_traffic := none,
        traffic_tier := tier,
        factors := none,
        recommendations := r }) kg serp fr).map TrafficInsightsView.readability
          = some (JsDisplay.num 0) ∧
      (TrafficInsights (some {
        estimated_monthly_traffic := none,
        traffic_tier := tier,
        factors := none,
        recommendations := r }) kg serp fr).map TrafficInsightsView.keywordCount
          = some (JsDisplay.num 0) ∧
      (TrafficInsights (some {
        estimated_monthly_traffic := none,
        traffic_tier := tier,
        factors := none,
        recommendations := r }) kg serp fr).map TrafficInsightsView.qualityScore
          = some (JsDisplay.num 0) ∧
      (TrafficInsights (some {
        estimated_monthly_traffic := none,
        traffic_tier := tier,
        factors := none,
        recommendations := r }) kg serp fr).map TrafficInsightsView.wordCount
          = some (JsDisplay.num 0)) ∧
    (∀ c m t mk, (TrafficInsights.keywordGapCard (some {
        coverage_score := none,
        covered := c,
        missing := m,
        total_expected := t,
        missing_keywords := mk })).map KeywordGapView.coverageScore
          = some (JsDisplay.num 0)) ∧
    (∀ cs t mk, (TrafficInsights.keywordGapCard (some {
        coverage_score := cs,
        covered := none,
        missing := none,
        total_expected := t,
        missing_keywords := mk })).map KeywordGapView.covered
          = some (JsDisplay.num 0)) ∧
    (∀ label, (SEOScoreCard.categoryRow none label SeoBreakdown.title).score = 0) ∧
    (∀ st d nu cid onr, (ContentFreshness (some {
        freshness_score := none,
        status := st,
        days_old := d,
        needs_update := nu }) cid onr).map ContentFreshnessView.scoreDisplay
          = some JsDisplay.empty) ∧
    (∀ g so dl dopt t d u, (MetaPreview (some {
        google := g,
        social := so,
        character_counts := some {
          title_length := none,
          title_optimal := some true,
          description_length := dl,
          description_optimal := dopt } }) t d u).map MetaPreviewView.titleLenDisplay
          = some JsDisplay.empty) ∧
    (∀ fs st nu cid onr, (ContentFreshness (some {
        freshness_score := fs,
        status := st,
        days_old := none,
        needs_update := nu }) cid onr).map ContentFreshnessView.ageText
          = some "undefined day old") :=
  ⟨fun _ _ _ _ _ _ => rfl,
   fun _ _ _ _ _ _ _ _ => rfl,
   fun _ _ _ _ _ => ⟨rfl, rfl, rfl, rfl⟩,
   fun _ _ _ _ => rfl,
   fun _ _ _ => rfl,
   fun _ => rfl,
   fun _ _ _ _ _ => rfl,
   fun _ _ _ _ _ _ _ => rfl,
   fun _ _ _ _ _ => rfl⟩

/-- Claim C4: the content-detail fetcher issues the content-by-id and
queries-by-content-id requests together (Promise.all) and exposes a
non-loading view model only after both resolve; from the initial state the
page renders only the loading indicator; when both requests succeed the
settled state is non-loading and renders the details; when either fails the
page toasts a transient error and settles in the terminal "Content not
found" render, which is distinct from loading. -/
theorem claim_C4 : ∀ (id : String) (cres : Except FetchError ContentRecord)
    (qres : Except FetchError (List Query)),
    (fetchContent id cres qres initialDetailState).1 =
      [Request.get ("/content/" ++ id), Request.get ("/queries/" ++ id)] ∧
    renderDetail initialDetailState = .loadingSpinner ∧
    (∀ c q, cres = .ok c → qres = .ok q →
      renderDetail (fetchContent id cres qres initialDetailState).2 = .details c q ∧
      (fetchContent id cres qres initialDetailState).2.loading = false) ∧
    (∀ e, cres = .error e →
      renderDetail (fetchContent id cres qres initialDetailState).2 = .notFound ∧
      (fetchContent id cres qres initialDetailState).2.toasts = ["Failed to load content"]) ∧
    (∀ e, qres = .error e →
      renderDetail (fetchContent id cres qres initialDetailState).2 = .notFound ∧
      (fetchContent id cres qres initialDetailState).2.toasts = ["Failed to load content"]) ∧
    DetailRender.notFound ≠ DetailRender.loadingSpinner := by
  intro id cres qres
  refine ⟨?_, rfl, ?_, ?_, ?_, by decide⟩
  · cases cres <;> cases qres <;> rfl
  · intro c q hc hq
    subst hc; subst hq
    exact ⟨rfl, rfl⟩
  · intro e hc
    subst hc
    cases qres <;> exact ⟨rfl, rfl⟩
  · intro e hq
    subst hq
    cases cres <;> exact ⟨rfl, rfl⟩

/-- Claim C4 witness: the theorem applied at a concrete id with a
successful pair of responses and with a failing queries response. -/
theorem claim_C4_witness :
    (renderDetail (fetchContent "abc" (Except.ok { id := "abc" })
      (Except.ok []) initialDetailState).2 = DetailRender.details { id := "abc" } []) ∧
    (renderDetail (fetchContent "abc" (Except.ok { id := "abc" })
      (Except.error FetchError.networkError) initialDetailState).2 = DetailRender.notFound) :=
  ⟨((claim_C4 "abc" (Except.ok { id := "abc" }) (Except.ok [])).2.2.1
      { id := "abc" } [] rfl rfl).1,
   ((claim_C4 "abc" (Except.ok { id := "abc" })
      (Except.error FetchError.networkError)).2.2.2.2.1 FetchError.networkError rfl).1⟩

/-- Claim C5: the Add-Content submit posts exactly when validation passes
(url mode requires a non-empty url; manual mode requires both a non-empty
title and content); on invalid input no request is issued and an error
toast is shown; on valid input the payload is exactly the url payload or
the manual payload; and on success the page schedules navigation to the new
detail page after the fixed 1500 ms delay. -/
theorem claim_C5 : ∀ (url title content : String)
    (res : Except PostErrorInfo PostResponse),
    (url = "" →
      (AddContent.handleSubmit "url" url title content res).request = none ∧
      (AddContent.handleSubmit "url" url title content res).toasts = ["Please enter a URL"] ∧
      (AddContent.handleSubmit "url" url title content res).navigation = none) ∧
    (url ≠ "" →
      (AddContent.handleSubmit "url" url title content res).request = some {
        input_type := "url",
        url := some url,
        title := none,
        content := none }) ∧
    (title = "" ∨ content = "" →
      (AddContent.handleSubmit "manual" url title content res).request = none ∧
      (AddContent.handleSubmit "manual" url title content res).toasts = ["Please fill in all fields"] ∧
      (AddContent.handleSubmit "manual" url title content res).navigation = none) ∧
    (title ≠ "" → content ≠ "" →
      (AddContent.handleSubmit "manual" url title content res).request = some {
        input_type := "manual",
        url := none,
        title := some title,
        content := some content }) ∧
    (∀ r, res = .ok r → url ≠ "" →
      (AddContent.handleSubmit "url" url title content res).navigation =
        some ("/content/" ++ r.id, 1500)) ∧
    (∀ r, res = .ok r → title ≠ "" → content ≠ "" →
      (AddContent.handleSubmit "manual" url title content res).navigation =
        some ("/content/" ++ r.id, 1500)) := by
  intro url title content res
  refine ⟨?_, ?_, ?_, ?_, ?_, ?_⟩
  · intro h
    simp [AddContent.handleSubmit, h]
  · intro h
    cases res <;> simp [AddContent.handleSubmit, AddContent.buildPayload, h]
  · intro h
    simp [AddContent.handleSubmit, h]
  · intro h1 h2
    cases res <;> simp [AddContent.handleSubmit, AddContent.buildPayload, h1, h2]
  · intro r hr h
    subst hr
    simp [AddContent.handleSubmit, h]
  · intro r hr h1 h2
    subst hr
    simp [AddContent.handleSubmit, h1, h2]

/-- Claim C5 witness: the theorem applied at concrete inputs, discharging
the validity hypotheses: an empty url blocks the request, a valid manual
submission posts the manual payload and navigates after 1500 ms. -/
theorem claim_C5_witness :
    (AddContent.handleSubmit "url" "" "" "" (Except.ok { id := "abc123" })).request = none ∧
    (AddContent.handleSubmit "manual" "" "T" "C" (Except.ok { id := "abc123" })).request = some {
      input_type := "manual",
      url := none,
      title := some "T",
      content := some "C" } ∧
    (AddContent.handleSubmit "manual" "" "T" "C" (Except.ok { id := "abc123" })).navigation =
      some ("/content/abc123", 1500) :=
  ⟨((claim_C5 "" "" "" (Except.ok { id := "abc123" })).1 rfl).1,
   (claim_C5 "" "T" "C" (Except.ok { id := "abc123" })).2.2.2.1
     (by decide) (by decide),
   (claim_C5 "" "T" "C" (Except.ok { id := "abc123" })).2.2.2.2.2
     { id := "abc123" } rfl (by decide) (by decide)⟩

/-- Claim C6: deleting from the Dashboard requires the confirmation dialog:
cancelling issues no request and leaves the content list unchanged;
confirming issues exactly one DELETE for the staged id and, on success,
re-runs the full analytics-plus-list fetch (both GET requests are issued
and the list is replaced by the server response, not filtered locally). -/
theorem claim_C6 : ∀ (s : DashboardState) (id : String)
    (delRes : Except FetchError Unit) (aRes : Except FetchError Analytics)
    (cRes : Except FetchError (List ContentItem)),
    (Dashboard.cancelDelete (Dashboard.openDeleteDialog id s)).1 = [] ∧
    (Dashboard.cancelDelete (Dashboard.openDeleteDialog id s)).2.contents = s.contents ∧
    countDeletes (Dashboard.handleDelete delRes aRes cRes (Dashboard.openDeleteDialog id s)).1 = 1 ∧
    ((Dashboard.handleDelete delRes aRes cRes (Dashboard.openDeleteDialog id s)).1).head? =
      some (Request.del ("/content/" ++ id)) ∧
    (∀ u, delRes = .ok u →
      (Dashboard.handleDelete delRes aRes cRes (Dashboard.openDeleteDialog id s)).1 =
        [Request.del ("/content/" ++ id), Request.get "/analytics", Request.get "/content"]) ∧
    (∀ u a l, delRes = .ok u → aRes = .ok a → cRes = .ok l →
      (Dashboard.handleDelete delRes aRes cRes (Dashboard.openDeleteDialog id s)).2.contents = l) := by
  intro s id delRes aRes cRes
  refine ⟨rfl, rfl, ?_, ?_, ?_, ?_⟩
  · cases delRes <;> cases aRes <;> cases cRes <;>
      simp [Dashboard.handleDelete, Dashboard.openDeleteDialog, Dashboard.fetchData, countDeletes]
  · cases delRes <;> cases aRes <;> cases cRes <;> rfl
  · intro u hd
    subst hd
    cases aRes <;> cases cRes <;> rfl
  · intro u a l hd ha hc
    subst hd; subst ha; subst hc
    rfl

/-- Claim C6 witness: the theorem applied at a concrete dashboard state:
confirming a staged delete issues the DELETE plus the two refetch GETs, and
the list afterwards is the server's refetched list. -/
theorem claim_C6_witness :
    (Dashboard.handleDelete (Except.ok ()) (Except.ok {
        total_content := some 1,
        total_queries := some 2,
        avg_performance_score := some 70,
        avg_readability_score := some 60,
        top_performing := none })
      (Except.ok [{ id := "b" }])
      (Dashboard.openDeleteDialog "a" {
        analytics := none,
        contents := [{ id := "a" }, { id := "b" }],
        loading := false,
        deleteDialogOpen := false,
        contentToDelete := none,
        toasts := [] })).1 =
      [Request.del "/content/a", Request.get "/analytics", Request.get "/content"] ∧
    (Dashboard.handleDelete (Except.ok ()) (Except.ok {
        total_content := some 1,
        total_queries := some 2,
        avg_performance_score := some 70,
        avg_readability_score := some 60,
        top_performing := none })
      (Except.ok [{ id := "b" }])
      (Dashboard.openDeleteDialog "a" {
        analytics := none,
        contents := [{ id := "a" }, { id := "b" }],
        loading := false,
        deleteDialogOpen := false,
        contentToDelete := none,
        toasts := [] })).2.contents = [{ id := "b" }] :=
  ⟨(claim_C6 {
      analytics := none,
      contents := [{ id := "a" }, { id := "b" }],
      loading := false,
      deleteDialogOpen := false,
      contentToDelete := none,
      toasts := [] } "a" (Except.ok ()) (Except.ok {
        total_content := some 1,
        total_queries := some 2,
        avg_performance_score := some 70,
        avg_readability_score := some 60,
        top_performing := none }) (Except.ok [{ id := "b" }])).2.2.2.2.1 () rfl,
   (claim_C6 {
      analytics := none,
      contents := [{ id := "a" }, { id := "b" }],
      loading := false,
      deleteDialogOpen := false,
      contentToDelete := none,
      toasts := [] } "a" (Except.ok ()) (Except.ok {
        total_content := some 1,
        total_queries := some 2,
        avg_performance_score := some 70,
        avg_readability_score := some 60,
        top_performing := none }) (Except.ok [{ id := "b" }])).2.2.2.2.2 () _ _ rfl rfl rfl⟩

/-- Claim C7 counterexample: the claim fails on the code at a backend
response whose detail field is present but empty.  The handler evaluates
`error.response?.data?.detail || 'Failed to add content'`, and an empty
string is falsy in JS, so the surfaced toast is the generic message rather
than the backend-provided (empty) detail message. -/
theorem claim_C7_counterexample :
    (AddContent.handleSubmit "url" "https://example.com/a" "" ""
      (Except.error { detail := some "" })).toasts = ["Failed to add content"] ∧
    ("Failed to add content" : String) ≠ "" :=
  ⟨rfl, by decide⟩

/-- Claim C7 as amended: when Add-Content submission fails, the page
surfaces the backend-provided detail message when it is present AND
non-empty (truthy); an absent or empty detail yields the generic failure
message; and in every failure case the handler returns to Idle with the
submit control re-enabled (loading cleared) and no navigation. -/
theorem claim_C7 : ∀ (url title content : String) (e : PostErrorInfo),
    (url ≠ "" →
      (∀ d, e.detail = some d → d ≠ "" →
        (AddContent.handleSubmit "url" url title content (.error e)).toasts = [d]) ∧
      (e.detail = none →
        (AddContent.handleSubmit "url" url title content (.error e)).toasts =
          ["Failed to add content"]) ∧
      (e.detail = some "" →
        (AddContent.handleSubmit "url" url title content (.error e)).toasts =
          ["Failed to add content"]) ∧
      (AddContent.handleSubmit "url" url title content (.error e)).navigation = none ∧
      (AddContent.handleSubmit "url" url title content (.error e)).finalLoading = false) ∧
    (title ≠ "" → content ≠ "" →
      (∀ d, e.detail = some d → d ≠ "" →
        (AddContent.handleSubmit "manual" url title content (.error e)).toasts = [d]) ∧
      (e.detail = none →
        (AddContent.handleSubmit "manual" url title content (.error e)).toasts =
          ["Failed to add content"]) ∧
      (AddContent.handleSubmit "manual" url title content (.error e)).navigation = none ∧
      (AddContent.handleSubmit "manual" url title content (.error e)).finalLoading = false) := by
  intro url title content e
  constructor
  · intro h
    refine ⟨?_, ?_, ?_, ?_, ?_⟩
    · intro d hd hne
      simp [AddContent.handleSubmit, jsOrStr, h, hd, hne]
    · intro hd
      simp [AddContent.handleSubmit, jsOrStr, h, hd]
    · intro hd
      simp [AddContent.handleSubmit, jsOrStr, h, hd]
    · simp [AddContent.handleSubmit, h]
    · simp [AddContent.handleSubmit, h]
  · intro h1 h2
    refine ⟨?_, ?_, ?_, ?_⟩
    · intro d hd hne
      simp [AddContent.handleSubmit, jsOrStr, h1, h2, hd, hne]
    · intro hd
      simp [AddContent.handleSubmit, jsOrStr, h1, h2, hd]
    · simp [AddContent.handleSubmit, h1, h2]
    · simp [AddContent.handleSubmit, h1, h2]

/-- Claim C7 witness: the amended theorem applied at concrete failures: a
non-empty detail is surfaced verbatim, an absent detail yields the generic
message, and no navigation is scheduled. -/
theorem claim_C7_witness :
    (AddContent.handleSubmit "url" "https://example.com/a" "" ""
      (.error { detail := some "URL is invalid" })).toasts = ["URL is invalid"] ∧
    (AddContent.handleSubmit "url" "https://example.com/a" "" ""
      (.error { detail := none })).toasts = ["Failed to add content"] ∧
    (AddContent.handleSubmit "url" "https://example.com/a" "" ""
      (.error { detail := some "URL is invalid" })).navigation = none :=
  ⟨((claim_C7 "https://example.com/a" "" "" { detail := some "URL is invalid" }).1
      (by decide)).1 "URL is invalid" rfl (by decide),
   ((claim_C7 "https://example.com/a" "" "" { detail := none }).1
      (by decide)).2.1 rfl,
   ((claim_C7 "https://example.com/a" "" "" { detail := some "URL is invalid" }).1
      (by decide)).2.2.2.1⟩

/-- Claim C8 counterexample: the claim fails on the code because the two
copy actions share the single `copied` state cell and their revert timeouts
are never cancelled.  Clicking Copy Share Link at t = 0 and Copy Sitemap
URL at t = 1000 immediately replaces the link acknowledgment with the
sitemap one (triggering one alters the other), and at t = 2000 the first
click's timeout fires and clears the sitemap acknowledgment even though its
own 2-second window runs until t = 3000 (cut short). -/
theorem claim_C8_counterexample :
    (ExportModal.copyShareLink "https://app.example" "c1" 0 ExportModal.initialState).copied
      = some "link" ∧
    (ExportModal.copySitemapUrl "https://app.example" 1000
      (ExportModal.copyShareLink "https://app.example" "c1" 0 ExportModal.initialState)).copied
      = some "sitemap" ∧
    some "sitemap" ≠ some "link" ∧
    (ExportModal.advance 2000
      (ExportModal.copySitemapUrl "https://app.example" 1000
        (ExportModal.copyShareLink "https://app.example" "c1" 0 ExportModal.initialState))).copied
      = none ∧
    (2000 : ℕ) < 1000 + 2000 :=
  ⟨rfl, rfl, by decide, rfl, by norm_num⟩

/-- Claim C8 as amended: each copy action copies its URL to the clipboard
and shows a "copied" acknowledgment which, when no other copy click is
pending or intervenes, auto-reverts exactly 2 seconds after the click and
not before; but the two acknowledgments are NOT independent: they share one
state cell and un-cancelled timeouts, so triggering one replaces the
other's acknowledgment immediately and an earlier click's pending revert
clears the later acknowledgment prematurely. -/
theorem claim_C8 : ∀ (origin cid : String) (now : ℕ) (s : ModalState),
    s.timers = [] →
    (ExportModal.copyShareLink origin cid now s).clipboard =
      some (origin ++ "/share/" ++ cid) ∧
    (ExportModal.copyShareLink origin cid now s).copied = some "link" ∧
    (∀ t, t < now + 2000 →
      (ExportModal.advance t (ExportModal.copyShareLink origin cid now s)).copied = some "link") ∧
    (ExportModal.advance (now + 2000) (ExportModal.copyShareLink origin cid now s)).copied = none ∧
    (ExportModal.copySitemapUrl origin now s).clipboard =
      some (origin ++ "/api/sitemap.xml") ∧
    (ExportModal.copySitemapUrl origin now s).copied = some "sitemap" ∧
    (∀ t, t < now + 2000 →
      (ExportModal.advance t (ExportModal.copySitemapUrl origin now s)).copied = some "sitemap") ∧
    (ExportModal.advance (now + 2000) (ExportModal.copySitemapUrl origin now s)).copied = none := by
  intro origin cid now s h
  refine ⟨rfl, rfl, ?_, ?_, rfl, rfl, ?_, ?_⟩
  · intro t ht
    rw [ExportModal.advance, ExportModal.copyShareLink, h]
    rw [if_neg]
    · simpa using ht
  · rw [ExportModal.advance, ExportModal.copyShareLink, h]
    rw [if_pos]
    · simp
  · intro t ht
    rw [ExportModal.advance, ExportModal.copySitemapUrl, h]
    rw [if_neg]
    · simpa using ht
  · rw [ExportModal.advance, ExportModal.copySitemapUrl, h]
    rw [if_pos]
    · simp

/-- Claim C8 witness: the amended theorem applied to a single share-link
click at t = 0 from the initial modal state: the acknowledgment still shows
at t = 1999 and has reverted at t = 2000, and the clipboard holds the share
URL. -/
theorem claim_C8_witness :
    (ExportModal.copyShareLink "https://app.example" "c1" 0 ExportModal.initialState).clipboard
      = some "https://app.example/share/c1" ∧
    (ExportModal.advance 1999
      (ExportModal.copyShareLink "https://app.example" "c1" 0 ExportModal.initialState)).copied
      = some "link" ∧
    (ExportModal.advance 2000
      (ExportModal.copyShareLink "https://app.example" "c1" 0 ExportModal.initialState)).copied
      = none :=
  ⟨(claim_C8 "https://app.example" "c1" 0 ExportModal.initialState rfl).1,
   (claim_C8 "https://app.example" "c1" 0 ExportModal.initialState rfl).2.2.1 1999 (by norm_num),
   (claim_C8 "https://app.example" "c1" 0 ExportModal.initialState rfl).2.2.2.1⟩
